import Mathlib

/-!
Shallow embedding of the audit pipeline of the Bundlr validator node
(src/cron/bundle.rs, src/cron/arweave.rs, src/database/queries.rs).

Conventions of the embedding:
* Machine integers (u128, block heights, epochs) are modelled as Nat; the one
  place where overflow matters (the epoch subtraction in delete_txs) models the
  u128 subtraction as a checked subtraction whose failure stands for the
  arithmetic underflow of the source.
* Rust panics (unwrap, todo, explicit panic macros) are modelled by the
  dedicated constructor Step.panic; fallible Rust code returns RResult.
* External collaborators that are not code of this crate (the openssl RSA-PSS
  verifier and the bundlr sdk deep-hash) are parameters of the definitions,
  so that every claim about message construction is settled against the code
  of this repository while the cryptographic primitive stays abstract.
* Byte strings are List Nat; ASCII text is converted with Char.toNat, which
  agrees with the UTF-8 bytes of the source on the ASCII fragment that all
  the involved strings (ids, base64url signatures) live in.
-/

namespace ValidatorSpec

/-- Outcome of running a piece of Rust code that may panic. -/
inductive Step (α : Type) : Type where
  | ok : α → Step α
  | panic : Step α
deriving DecidableEq, Repr

/-- Rust Result. -/
inductive RResult (ε α : Type) : Type where
  | ok : α → RResult ε α
  | err : ε → RResult ε α
deriving DecidableEq, Repr

/-- std io Result with an abstract error payload; verify_tx_receipt has this
return type in the source, though no path of it ever builds the error case. -/
inductive IoResult (α : Type) : Type where
  | ok : α → IoResult α
  | ioError : IoResult α
deriving DecidableEq, Repr

/-- ValidatorCronError from src/cron/error.rs, as matched in bundle.rs. -/
inductive ValidatorCronError : Type where
  | TxNotFound
  | AddressNotFound
  | TxsFromAddressNotFound
  | BundleNotInsertedInDB
  | TxInvalid
  | FileError
deriving DecidableEq, Repr

/-- Result of one audit step: Ok(()) or a ValidatorCronError. -/
inductive CronResult : Type where
  | ok : CronResult
  | err : ValidatorCronError → CronResult
deriving DecidableEq, Repr

/-- TxReceipt from src/cron/bundle.rs. -/
structure TxReceipt : Type where
  block : Nat
  tx_id : String
  signature : String
deriving DecidableEq, Repr

/-- Bytes of an ASCII string (models str.as_bytes of the source on the ASCII
fragment all involved strings live in). -/
def asciiBytes (s : String) : List Nat := s.toList.map Char.toNat

/-- Models std str from_utf8 on the ASCII range: the signatures the audit
stores are base64url text, hence ASCII.  A non-ASCII byte list is reported as
a failure, which the caller in the source turns into a panic. -/
def charsOfBytes (bs : List Nat) : Option (List Char) :=
  if bs.all (fun b => b < 128) then some (bs.map Char.ofNat) else none

/-- Value of one base64url alphabet character (A-Z a-z 0-9 - _). -/
def b64Char (c : Char) : Option Nat :=
  if ('A' ≤ c ∧ c ≤ 'Z') then some (c.toNat - 65)
  else if ('a' ≤ c ∧ c ≤ 'z') then some (c.toNat - 97 + 26)
  else if ('0' ≤ c ∧ c ≤ '9') then some (c.toNat - 48 + 52)
  else if (c = '-') then some 62
  else if (c = '_') then some 63
  else none

/-- Map b64Char over a list of characters, failing on the first bad one. -/
def mapB64 : List Char → Option (List Nat)
  | [] => some []
  | c :: cs =>
    match b64Char c, mapB64 cs with
    | some v, some vs => some (v :: vs)
    | _, _ => none

/-- Big-endian byte rendering of a number into exactly k bytes. -/
def natToBytes : Nat → Nat → List Nat
  | 0, _ => []
  | k + 1, x => natToBytes k (x / 256) ++ [x % 256]

/-- BASE64URL_NOPAD decoding of the data_encoding crate: no padding, length
mod 4 different from 1, canonical (all trailing bits zero). -/
def b64urlDecode (s : String) : Option (List Nat) :=
  match mapB64 s.toList with
  | none => none
  | some vals =>
    let n := vals.length
    if n % 4 = 1 then none
    else
      let t := 6 * n % 8
      let big := vals.foldl (fun acc v => acc * 64 + v) 0
      if big % 2 ^ t = 0 then some (natToBytes (6 * n / 8) (big / 2 ^ t)) else none

/-- Constant from verify_tx_receipt: ASCII bytes of Bundlr. -/
def BUNDLR_AS_BUFFER : List Nat := asciiBytes "Bundlr"

/-- ONE_AS_BUFFER of the bundlr sdk: ASCII bytes of the digit one. -/
def ONE_AS_BUFFER : List Nat := asciiBytes "1"

/-- Bytes of the base-10 rendering of a block height, as produced by
to_string in the source (no leading zeros). -/
def decimalBytes (n : Nat) : List Nat := asciiBytes (Nat.repr n)

/-- verify_tx_receipt from src/cron/bundle.rs.  The deep-hash of the bundlr
sdk and the openssl RSA-PSS SHA-256 verification under the bundler public key
are external collaborators, passed in as deepHash and rsaVerify.  The source
unwraps the base64url decoding of the signature, so an undecodable signature
is a panic; openssl verify errors are absorbed into false by unwrap_or. -/
def verify_tx_receipt (rsaVerify : List Nat → List Nat → Bool)
    (deepHash : List (List Nat) → List Nat) (tx_receipt : TxReceipt) :
    Step (IoResult Bool) :=
  let block := decimalBytes tx_receipt.block
  let tx_id := asciiBytes tx_receipt.tx_id
  let message := deepHash [BUNDLR_AS_BUFFER, ONE_AS_BUFFER, tx_id, block]
  match b64urlDecode tx_receipt.signature with
  | none => Step.panic
  | some sig => Step.ok (IoResult.ok (rsaVerify message sig))

/-- A transactions row (database model, src/database/schema.rs). -/
structure Tx : Type where
  id : String
  epoch : Nat
  block_promised : Nat
  block_actual : Option Nat
  signature : List Nat
  validated : Bool
  bundle_id : Option String
deriving DecidableEq, Repr

/-- NewTransaction as handed to insert_tx_in_db. -/
structure NewTransaction : Type where
  id : String
  epoch : Nat
  block_promised : Nat
  block_actual : Option Nat
  signature : List Nat
  validated : Bool
  bundle_id : Option String
deriving DecidableEq, Repr

/-- A bundle row / NewBundle (id, owner_address, block_height). -/
structure BundleRow : Type where
  id : String
  owner_address : String
  block_height : Nat
deriving DecidableEq, Repr

/-- A configured validator peer (validators table / crate types). -/
structure ValidatorPeer : Type where
  address : String
  url : String
deriving DecidableEq, Repr

/-- An embedded bundle item of the bundlr sdk; the audit consumes only its
tx_id field. -/
structure Item : Type where
  tx_id : String
deriving DecidableEq, Repr

/-- Answer of one peer to GET url/tx/tx_id: a transport failure, or an HTTP
status together with the body already decoded as a TxReceipt (none models a
body that is not valid JSON for a receipt). -/
inductive PeerResponse : Type where
  | transportErr : PeerResponse
  | http : Nat → Option TxReceipt → PeerResponse
deriving DecidableEq, Repr

/-- Tag of a gateway transaction. -/
structure Tag : Type where
  name : String
  value : String
deriving DecidableEq, Repr

/-- Block info of a mined gateway transaction. -/
structure BlockInfo : Type where
  id : String
  timestamp : Int
  height : Nat
deriving DecidableEq, Repr

/-- A gateway chain transaction as returned by the GraphQL query
(src/cron/arweave.rs, struct Transaction). -/
structure ArweaveTx : Type where
  id : String
  owner : String
  signature : String
  recipient : Option String
  tags : List Tag
  block : Option BlockInfo
deriving DecidableEq, Repr

/-- One GraphQL edge: a node and its cursor. -/
structure GraphqlNodes : Type where
  node : ArweaveTx
  cursor : String
deriving DecidableEq, Repr

/-- Decoded GraphQL response body. -/
structure GqlResponse : Type where
  edges : List GraphqlNodes
  has_next_page : Bool
deriving DecidableEq, Repr

/-- ArweaveError from src/cron/arweave.rs. -/
inductive ArweaveError : Type where
  | TxsNotFound
  | MalformedQuery
  | InternalServerError
  | GatewayTimeout
  | UnknownErr
deriving DecidableEq, Repr

/-- Outcome of the recent-transactions HTTP call: a transport failure, or a
status code with the body already decoded as a GqlResponse (none models a
body that is not valid JSON). -/
inductive HttpOutcome : Type where
  | transportErr : HttpOutcome
  | response : Nat → Option GqlResponse → HttpOutcome
deriving DecidableEq, Repr

/-- The ambient collaborators of one audit pass: the abstract cryptography,
the store lookups, the configured peers and their HTTP behaviour, the current
epoch of the validator state, the bundler identity, and the per-bundle
download / parse results. -/
structure AuditEnv : Type where
  rsaVerify : List Nat → List Nat → Bool
  deepHash : List (List Nat) → List Nat
  getTx : String → Option Tx
  getBundle : String → Option BundleRow
  peers : List ValidatorPeer
  peerRespond : String → String → PeerResponse
  currentEpoch : Nat
  bundlerAddress : String
  download : String → Bool
  parseBundle : String → Option (List Item)
  gqlResponse : HttpOutcome

/-- Side effects of a run: transactions rows handed to insert_tx_in_db,
bundle rows handed to insert_bundle_in_db, and slashing votes cast. -/
structure Effects : Type where
  txInserts : List NewTransaction
  bundleInserts : List BundleRow
  slashVotes : Nat
deriving DecidableEq, Repr

/-- No effects. -/
def emptyEffects : Effects := { txInserts := [], bundleInserts := [], slashVotes := 0 }

/-- Sequencing of effects. -/
def mergeEffects (a b : Effects) : Effects :=
  { txInserts := a.txInserts ++ b.txInserts
    bundleInserts := a.bundleInserts ++ b.bundleInserts
    slashVotes := a.slashVotes + b.slashVotes }

/-- The for loop inside tx_exists_on_peers, over an explicit peer list:
GET url/tx/tx_id against each peer in order; transport errors and non-2xx
answers move to the next peer; a 2xx answer is decoded as a receipt with
unwrap (a bad body panics); an exhausted list is TxNotFound.  Also returns
the list of request URLs issued, in order. -/
def peerLoop (env : AuditEnv) (tx_id : String) :
    List ValidatorPeer → List String × Step (RResult ValidatorCronError TxReceipt)
  | [] => ([], Step.ok (RResult.err ValidatorCronError.TxNotFound))
  | p :: ps =>
    let url := p.url ++ "/tx/" ++ tx_id
    match env.peerRespond p.url tx_id with
    | PeerResponse.transportErr =>
      let rest := peerLoop env tx_id ps
      (url :: rest.1, rest.2)
    | PeerResponse.http status body =>
      if 200 ≤ status ∧ status < 300 then
        match body with
        | some r => ([url], Step.ok (RResult.ok r))
        | none => ([url], Step.panic)
      else
        let rest := peerLoop env tx_id ps
        (url :: rest.1, rest.2)

/-- tx_exists_on_peers from src/cron/bundle.rs.  The source builds the peer
list as a freshly constructed empty Vec (it never reads the configured
validators), then runs the loop over it. -/
def tx_exists_on_peers (env : AuditEnv) (tx_id : String) :
    List String × Step (RResult ValidatorCronError TxReceipt) :=
  let validator_peers : List ValidatorPeer := []
  peerLoop env tx_id validator_peers

/-- verify_bundle_tx from src/cron/bundle.rs: fetch the receipt from the
local store, else from the peers; verify it; when the verification succeeds
and the promised block is at most the mined block, insert a transactions row
with epoch 0 and bundle_id equal to the item id; in every other receipt case
the source only carries a vote-slash TODO comment and casts no vote. -/
def verify_bundle_tx (env : AuditEnv) (bundle_tx : Item) (current_block : Option Nat) :
    Step (Effects × CronResult) :=
  let fetched : Step (Option TxReceipt) :=
    match env.getTx bundle_tx.tx_id with
    | some t =>
      match charsOfBytes t.signature with
      | none => Step.panic
      | some cs =>
        Step.ok (some { block := t.block_promised, tx_id := t.id, signature := String.mk cs })
    | none =>
      match (tx_exists_on_peers env bundle_tx.tx_id).2 with
      | Step.panic => Step.panic
      | Step.ok (RResult.ok r) => Step.ok (some r)
      | Step.ok (RResult.err _) => Step.ok none
  match fetched with
  | Step.panic => Step.panic
  | Step.ok none => Step.ok (emptyEffects, CronResult.ok)
  | Step.ok (some receipt) =>
    match verify_tx_receipt env.rsaVerify env.deepHash receipt with
    | Step.panic => Step.panic
    | Step.ok IoResult.ioError => Step.panic
    | Step.ok (IoResult.ok tx_is_ok) =>
      if tx_is_ok then
        match current_block with
        | none => Step.panic
        | some cb =>
          if receipt.block ≤ cb then
            Step.ok
              ({ txInserts := [{ id := receipt.tx_id
                                 epoch := 0
                                 block_promised := receipt.block
                                 block_actual := some cb
                                 signature := asciiBytes receipt.signature
                                 validated := true
                                 bundle_id := some bundle_tx.tx_id }]
                 bundleInserts := []
                 slashVotes := 0 }, CronResult.ok)
          else Step.ok (emptyEffects, CronResult.ok)
      else Step.ok (emptyEffects, CronResult.ok)

/-- check_bundle_block: the mined height of the bundle, none when unmined. -/
def check_bundle_block (bundle : ArweaveTx) : Option Nat :=
  match bundle.block with
  | some blk => some blk.height
  | none => none

/-- store_bundle: insert the bundle row unless a row with its id exists. -/
def store_bundle (env : AuditEnv) (bundle : ArweaveTx) (current_block : Nat) : Effects :=
  match env.getBundle bundle.id with
  | some _ => emptyEffects
  | none =>
    { emptyEffects with
      bundleInserts := [{ id := bundle.id
                          owner_address := env.bundlerAddress
                          block_height := current_block }] }

/-- The for loop over the parsed bundle items in validate_bundle; an item
whose verification returns an error aborts the bundle with TxInvalid. -/
def itemsLoop (env : AuditEnv) (cb : Option Nat) : List Item → Step (Effects × CronResult)
  | [] => Step.ok (emptyEffects, CronResult.ok)
  | it :: rest =>
    match verify_bundle_tx env it cb with
    | Step.panic => Step.panic
    | Step.ok (eff, CronResult.err _) =>
      Step.ok (eff, CronResult.err ValidatorCronError.TxInvalid)
    | Step.ok (eff, CronResult.ok) =>
      match itemsLoop env cb rest with
      | Step.panic => Step.panic
      | Step.ok (eff2, res) => Step.ok (mergeEffects eff eff2, res)

/-- validate_bundle from src/cron/bundle.rs: skip unmined bundles; store the
bundle row (result discarded by the source); download the payload, failing
with FileError; parse it, treating a parse failure as an empty item list;
then audit every item. -/
def validate_bundle (env : AuditEnv) (bundle : ArweaveTx) : Step (Effects × CronResult) :=
  match check_bundle_block bundle with
  | none => Step.ok (emptyEffects, CronResult.ok)
  | some current_block =>
    let eff1 := store_bundle env bundle current_block
    if env.download bundle.id then
      let bundle_txs := (env.parseBundle bundle.id).getD []
      match itemsLoop env (some current_block) bundle_txs with
      | Step.panic => Step.panic
      | Step.ok (eff2, res) => Step.ok (mergeEffects eff1 eff2, res)
    else Step.ok (eff1, CronResult.err ValidatorCronError.FileError)

/-- get_latest_transactions of src/cron/arweave.rs, modelled from the point
where the HTTP response arrives: a transport error is unwrapped (panic);
status 200 parses the JSON body with unwrap (panic on a bad body) and folds
the edges into the node list and the last cursor; the remaining statuses map
to the ArweaveError kinds. -/
def get_latest_transactions (res : HttpOutcome) :
    Step (RResult ArweaveError (List ArweaveTx × Bool × Option String)) :=
  match res with
  | HttpOutcome.transportErr => Step.panic
  | HttpOutcome.response status body =>
    if status = 200 then
      match body with
      | none => Step.panic
      | some r =>
        let folded := r.edges.foldl
          (fun (acc : List ArweaveTx × Option String) e => (acc.1 ++ [e.node], some e.cursor))
          ([], none)
        Step.ok (RResult.ok (folded.1, r.has_next_page, folded.2))
    else if status = 400 then Step.ok (RResult.err ArweaveError.MalformedQuery)
    else if status = 404 then Step.ok (RResult.err ArweaveError.TxsNotFound)
    else if status = 500 then Step.ok (RResult.err ArweaveError.InternalServerError)
    else if status = 504 then Step.ok (RResult.err ArweaveError.GatewayTimeout)
    else Step.ok (RResult.err ArweaveError.UnknownErr)

/-- The for loop over the bundles in validate_bundler: a FileError from a
bundle is swallowed and the pass continues; every other error arm of the
source match is a todo macro, hence a panic. -/
def bundlesLoop (env : AuditEnv) : List ArweaveTx → Step (Effects × CronResult)
  | [] => Step.ok (emptyEffects, CronResult.ok)
  | b :: rest =>
    match validate_bundle env b with
    | Step.panic => Step.panic
    | Step.ok (eff, res) =>
      match res with
      | CronResult.err ValidatorCronError.FileError =>
        match bundlesLoop env rest with
        | Step.panic => Step.panic
        | Step.ok (eff2, res2) => Step.ok (mergeEffects eff eff2, res2)
      | CronResult.ok =>
        match bundlesLoop env rest with
        | Step.panic => Step.panic
        | Step.ok (eff2, res2) => Step.ok (mergeEffects eff eff2, res2)
      | CronResult.err _ => Step.panic

/-- validate_bundler from src/cron/bundle.rs: fetch the 50 most recent
bundler transactions; on error report TxsFromAddressNotFound; otherwise
audit each bundle and finish with Ok. -/
def validate_bundler (env : AuditEnv) : Step (Effects × CronResult) :=
  match get_latest_transactions env.gqlResponse with
  | Step.panic => Step.panic
  | Step.ok (RResult.err _) =>
    Step.ok (emptyEffects, CronResult.err ValidatorCronError.TxsFromAddressNotFound)
  | Step.ok (RResult.ok (txs, _, _)) => bundlesLoop env txs

/-- The epoch list of delete_txs, built over an explicit index list: the
u128 subtraction current_epoch - i of the source, whose underflow is the
failure case. -/
def collectEpochs (e : Nat) : List Nat → Option (List Nat)
  | [] => some []
  | i :: is =>
    if e < i then none
    else
      match collectEpochs e is with
      | none => none
      | some vs => some ((e - i) :: vs)

/-- delete_txs from src/database/queries.rs: build the retained epochs
(current_epoch - i for i in 0..epoch_amount) and delete every transactions
row whose epoch is not among them, returning the surviving rows and the
count of deleted rows; none models the underflow panic of the subtraction,
which happens before any database access. -/
def delete_txs (current_epoch epoch_amount : Nat) (rows : List Tx) : Option (List Tx × Nat) :=
  match collectEpochs current_epoch (List.range epoch_amount) with
  | none => none
  | some epochs =>
    some (rows.filter (fun t => epochs.contains t.epoch),
          (rows.filter (fun t => !(epochs.contains t.epoch))).length)

/-! Concrete inputs used by the claim theorems and witnesses. -/

/-- A concrete deep-hash collaborator: chunk concatenation. -/
def dhW : List (List Nat) → List Nat := fun cs => cs.foldl (fun a c => a ++ c) []

/-- A concrete RSA verifier accepting exactly the byte string 1 0 1. -/
def rvW : List Nat → List Nat → Bool := fun _ s => decide (s = [1, 0, 1])

/-- A verifier accepting every signature. -/
def rvTrue : List Nat → List Nat → Bool := fun _ _ => true

/-- A verifier rejecting every signature. -/
def rvFalse : List Nat → List Nat → Bool := fun _ _ => false

/-- A concrete receipt whose signature is valid base64url. -/
def rW : TxReceipt := { block := 10, tx_id := "tx1", signature := "AQAB" }

/-- A receipt whose signature is not base64url (the bang character). -/
def badReceipt : TxReceipt := { block := 1, tx_id := "tx1", signature := "!" }

/-- A stored transactions row promising block 12. -/
def rowLate : Tx :=
  { id := "item1", epoch := 0, block_promised := 12, block_actual := none,
    signature := asciiBytes "sig", validated := true, bundle_id := none }

/-- Environment for the late-inclusion run: the receipt of item1 is stored
locally, every signature verifies, and the containing bundle is mined at
height 10 while the receipt promises 12. -/
def envC1 : AuditEnv :=
  { rsaVerify := rvTrue, deepHash := dhW,
    getTx := fun s => if s = "item1" then some rowLate else none,
    getBundle := fun _ => none,
    peers := [], peerRespond := fun _ _ => PeerResponse.transportErr,
    currentEpoch := 3, bundlerAddress := "bundlerAddr",
    download := fun _ => true, parseBundle := fun _ => some [{ tx_id := "item1" }],
    gqlResponse := HttpOutcome.transportErr }

/-- A stored transactions row promising block 5. -/
def rowEarly : Tx :=
  { id := "itemA", epoch := 2, block_promised := 5, block_actual := none,
    signature := asciiBytes "sig", validated := true, bundle_id := none }

/-- A mined bundle transaction with id bundle1 at height 10. -/
def bundleC2 : ArweaveTx :=
  { id := "bundle1", owner := "bundlerAddr", signature := "s", recipient := none,
    tags := [], block := some { id := "blk", timestamp := 100, height := 10 } }

/-- Environment for the happy-path insert: current epoch 7, item itemA with a
locally stored receipt promising block 5 inside bundle1 mined at height 10. -/
def envC2 : AuditEnv :=
  { rsaVerify := rvTrue, deepHash := dhW,
    getTx := fun s => if s = "itemA" then some rowEarly else none,
    getBundle := fun _ => none,
    peers := [], peerRespond := fun _ _ => PeerResponse.transportErr,
    currentEpoch := 7, bundlerAddress := "bundlerAddr",
    download := fun _ => true, parseBundle := fun _ => some [{ tx_id := "itemA" }],
    gqlResponse := HttpOutcome.transportErr }

/-- The transactions row that the happy-path run hands to insert_tx_in_db. -/
def insertedC2 : NewTransaction :=
  { id := "itemA", epoch := 0, block_promised := 5, block_actual := some 10,
    signature := asciiBytes "sig", validated := true, bundle_id := some "itemA" }

/-- A stored transactions row for the forged-receipt scenario. -/
def rowB : Tx :=
  { id := "itemB", epoch := 2, block_promised := 5, block_actual := none,
    signature := asciiBytes "sig", validated := true, bundle_id := none }

/-- A mined bundle transaction with id bundle5 at height 10. -/
def bundleC5 : ArweaveTx :=
  { id := "bundle5", owner := "bundlerAddr", signature := "s", recipient := none,
    tags := [], block := some { id := "blk", timestamp := 100, height := 10 } }

/-- Environment for the forged-receipt pass: the gateway returns bundle5, its
single item itemB has a stored receipt, and every signature verification
fails. -/
def envC5 : AuditEnv :=
  { rsaVerify := rvFalse, deepHash := dhW,
    getTx := fun s => if s = "itemB" then some rowB else none,
    getBundle := fun _ => none,
    peers := [], peerRespond := fun _ _ => PeerResponse.transportErr,
    currentEpoch := 7, bundlerAddress := "bundlerAddr",
    download := fun _ => true, parseBundle := fun _ => some [{ tx_id := "itemB" }],
    gqlResponse := HttpOutcome.response 200
      (some { edges := [{ node := bundleC5, cursor := "c" }], has_next_page := false }) }

/-- Environment for the peer-fallback run: one configured validator peer that
would answer any receipt request with status 200 and a decodable receipt. -/
def envC6 : AuditEnv :=
  { rsaVerify := rvTrue, deepHash := dhW,
    getTx := fun _ => none,
    getBundle := fun _ => none,
    peers := [{ address := "peer1", url := "http://peer1" }],
    peerRespond := fun _ _ =>
      PeerResponse.http 200 (some { block := 7, tx_id := "t6", signature := "AA" }),
    currentEpoch := 0, bundlerAddress := "bundlerAddr",
    download := fun _ => true, parseBundle := fun _ => some [],
    gqlResponse := HttpOutcome.transportErr }

/-- A transactions row with the given epoch and dummy remaining fields. -/
def mkTx (e : Nat) : Tx :=
  { id := "", epoch := e, block_promised := 0, block_actual := none,
    signature := [], validated := false, bundle_id := none }

/-- Rows with epochs 0 through 7, the S6 scenario population. -/
def rowsW : List Tx := (List.range 8).map mkTx

/-! Helper lemmas about the epoch collection of delete_txs. -/

/-- The epoch collection fails exactly when some index exceeds the current
epoch, which is the underflow of the u128 subtraction. -/
theorem collectEpochs_eq_none (e : Nat) (l : List Nat) :
    collectEpochs e l = none ↔ ∃ i ∈ l, e < i := by
  induction l with
  | nil => simp [collectEpochs]
  | cons a l ih =>
    simp only [collectEpochs, List.mem_cons]
    by_cases h : e < a
    · simp [h]
    · rw [if_neg h]
      cases hc : collectEpochs e l with
      | none =>
        obtain ⟨i, hi, hei⟩ := ih.mp hc
        exact ⟨fun _ => ⟨i, Or.inr hi, hei⟩, fun _ => rfl⟩
      | some vs =>
        constructor
        · intro hcon; exact absurd hcon (by simp)
        · rintro ⟨i, hi | hi, hei⟩
          · omega
          · exact absurd (ih.mpr ⟨i, hi, hei⟩) (by simp [hc])

/-- When no index underflows, the epoch collection is the mapped list. -/
theorem collectEpochs_eq_some (e : Nat) :
    ∀ (l : List Nat), (∀ i ∈ l, i ≤ e) →
      collectEpochs e l = some (l.map (fun i => e - i))
  | [], _ => rfl
  | a :: l, h => by
    have ha : a ≤ e := h a (List.mem_cons_self a l)
    have hrest := collectEpochs_eq_some e l (fun i hi => h i (List.mem_cons_of_mem a hi))
    simp only [collectEpochs, List.map_cons]
    rw [if_neg (by omega), hrest]

/-! Claim theorems. -/

/-- Claim C1 (code_bug evidence): for an item whose receipt verifies and
promises block 12 while the containing bundle is mined at height 10, the
audit casts no slash vote and inserts no row; the branch of the source that
the claim requires to invoke the Slasher holds only a TODO comment. -/
theorem verify_bundle_tx_no_slash_on_late_inclusion :
    rowLate.block_promised > 10 ∧
    verify_tx_receipt envC1.rsaVerify envC1.deepHash
      { block := 12, tx_id := "item1", signature := "sig" } = Step.ok (IoResult.ok true) ∧
    verify_bundle_tx envC1 { tx_id := "item1" } (some 10) =
      Step.ok ({ txInserts := [], bundleInserts := [], slashVotes := 0 }, CronResult.ok) := by
  decide

/-- Claim C2 (code_bug evidence): on the happy path (receipt verifies,
promised block 5 at most the mined height 10) the audit inserts a row whose
promised and actual blocks and validated flag are as claimed, but whose
epoch is the hard-coded 0 instead of the current epoch 7 and whose bundle_id
is the item id itemA instead of the containing bundle id bundle1. -/
theorem validate_bundle_insert_fields :
    validate_bundle envC2 bundleC2 =
      Step.ok ({ txInserts := [insertedC2],
                 bundleInserts := [{ id := "bundle1", owner_address := "bundlerAddr",
                                     block_height := 10 }],
                 slashVotes := 0 }, CronResult.ok) ∧
    insertedC2.block_promised = 5 ∧
    insertedC2.block_actual = some 10 ∧
    insertedC2.validated = true ∧
    insertedC2.epoch ≠ envC2.currentEpoch ∧
    insertedC2.bundle_id ≠ some bundleC2.id := by
  decide

/-- Claim C3: verify_tx_receipt answers true exactly when the RSA-PSS
collaborator accepts the base64url-nopad decoding of the signature as a
signature of the deep-hash of the chunk list Bundlr, 1, tx_id, and the
base-10 rendering of the promised block, provided the signature decodes. -/
theorem verify_tx_receipt_characterization
    (rsaVerify : List Nat → List Nat → Bool) (deepHash : List (List Nat) → List Nat)
    (r : TxReceipt) (sig : List Nat) (h : b64urlDecode r.signature = some sig) :
    verify_tx_receipt rsaVerify deepHash r = Step.ok (IoResult.ok true) ↔
      rsaVerify (deepHash [asciiBytes "Bundlr", asciiBytes "1",
        asciiBytes r.tx_id, decimalBytes r.block]) sig = true := by
  simp only [verify_tx_receipt, BUNDLR_AS_BUFFER, ONE_AS_BUFFER, h,
    Step.ok.injEq, IoResult.ok.injEq]

/-- Witness for claim C3 at a concrete receipt whose signature AQAB decodes
to the bytes 1 0 1. -/
theorem verify_tx_receipt_characterization_witness :
    b64urlDecode rW.signature = some [1, 0, 1] ∧
    (verify_tx_receipt rvW dhW rW = Step.ok (IoResult.ok true) ↔
      rvW (dhW [asciiBytes "Bundlr", asciiBytes "1",
        asciiBytes rW.tx_id, decimalBytes rW.block]) [1, 0, 1] = true) :=
  ⟨by decide, verify_tx_receipt_characterization rvW dhW rW [1, 0, 1] (by decide)⟩

/-- Claim C4 (code_bug evidence): a signature that is not valid
base64url-nopad makes verify_tx_receipt panic on the unwrap of the decoder,
which is neither the boolean false nor a returned error. -/
theorem verify_tx_receipt_panics_on_bad_base64 :
    verify_tx_receipt rvW dhW badReceipt = Step.panic ∧
    (Step.panic : Step (IoResult Bool)) ≠ Step.ok (IoResult.ok false) ∧
    (Step.panic : Step (IoResult Bool)) ≠ Step.ok IoResult.ioError := by
  decide

/-- Claim C5 (code_bug evidence): a pass over one bundle whose single item
fails signature verification inserts no transactions row and returns success
as claimed, but casts no slash vote either, since the slash branch of the
source is a TODO comment. -/
theorem validate_bundler_forged_receipt :
    validate_bundler envC5 =
      Step.ok ({ txInserts := [],
                 bundleInserts := [{ id := "bundle5", owner_address := "bundlerAddr",
                                     block_height := 10 }],
                 slashVotes := 0 }, CronResult.ok) := by
  decide

/-- Claim C6 (code_bug evidence): with one configured peer that would answer
a receipt request with status 200, tx_exists_on_peers still issues no
request and fails with TxNotFound, because the source iterates a freshly
constructed empty vector instead of the configured validator peers. -/
theorem tx_exists_on_peers_ignores_configured_peers :
    envC6.peers ≠ [] ∧
    envC6.peerRespond "http://peer1" "t6" =
      PeerResponse.http 200 (some { block := 7, tx_id := "t6", signature := "AA" }) ∧
    tx_exists_on_peers envC6 "t6" =
      ([], Step.ok (RResult.err ValidatorCronError.TxNotFound)) := by
  decide

/-- Claim C7 counterexample: at current epoch 0 with retention 2 the claimed
deletion (the row of epoch 5 removed, count 1) does not happen; the epoch
subtraction underflows and delete_txs fails before touching the rows. -/
theorem delete_txs_not_total :
    delete_txs 0 2 [mkTx 5] = none ∧
    delete_txs 0 2 [mkTx 5] ≠ some ([], 1) := by
  decide

/-- Claim C7 as amended: when the current epoch is at least retention minus
one, delete_txs keeps exactly the rows whose epoch lies in the window from
e - (r - 1) to e, deletes every other row, and returns the deleted count. -/
theorem delete_txs_retention_window (e r : Nat) (rows : List Tx) (h : r - 1 ≤ e) :
    delete_txs e r rows =
      some (rows.filter (fun t => decide (0 < r ∧ e - (r - 1) ≤ t.epoch ∧ t.epoch ≤ e)),
            (rows.filter
              (fun t => !decide (0 < r ∧ e - (r - 1) ≤ t.epoch ∧ t.epoch ≤ e))).length) := by
  have hc := collectEpochs_eq_some e (List.range r)
    (fun i hi => by rw [List.mem_range] at hi; omega)
  have hpt : ∀ t : Tx, ((List.range r).map (fun i => e - i)).contains t.epoch =
      decide (0 < r ∧ e - (r - 1) ≤ t.epoch ∧ t.epoch ≤ e) := by
    intro t
    have hiff : t.epoch ∈ (List.range r).map (fun i => e - i) ↔
        (0 < r ∧ e - (r - 1) ≤ t.epoch ∧ t.epoch ≤ e) := by
      simp only [List.mem_map, List.mem_range]
      constructor
      · rintro ⟨i, hi, hx⟩; omega
      · rintro ⟨hr, h1, h2⟩; exact ⟨e - t.epoch, by omega, by omega⟩
    rw [show ((List.range r).map (fun i => e - i)).contains t.epoch
          = decide (t.epoch ∈ (List.range r).map (fun i => e - i)) from
        List.elem_eq_mem _ _, decide_eq_decide]
    exact hiff
  have h1 : rows.filter (fun t => ((List.range r).map (fun i => e - i)).contains t.epoch)
      = rows.filter (fun t => decide (0 < r ∧ e - (r - 1) ≤ t.epoch ∧ t.epoch ≤ e)) :=
    List.filter_congr (fun x _ => hpt x)
  have h2 : rows.filter
        (fun t => !(((List.range r).map (fun i => e - i)).contains t.epoch))
      = rows.filter (fun t => !decide (0 < r ∧ e - (r - 1) ≤ t.epoch ∧ t.epoch ≤ e)) :=
    List.filter_congr (fun x _ => by rw [hpt x])
  simp only [delete_txs, hc]
  rw [h1, h2]

/-- Witness for the amended claim C7 at current epoch 7, retention 3, on the
rows of epochs 0 through 7. -/
theorem delete_txs_retention_window_witness :
    3 - 1 ≤ 7 ∧
    delete_txs 7 3 rowsW =
      some (rowsW.filter (fun t => decide (0 < 3 ∧ 7 - (3 - 1) ≤ t.epoch ∧ t.epoch ≤ 7)),
            (rowsW.filter
              (fun t => !decide (0 < 3 ∧ 7 - (3 - 1) ≤ t.epoch ∧ t.epoch ≤ 7))).length) :=
  ⟨by decide, delete_txs_retention_window 7 3 rowsW (by decide)⟩

/-- Claim C8 counterexample: with current epoch 7 and retention 3 the rows
of epoch 4 are not preserved, so the claimed surviving set 4 5 6 7 with
count 4 is wrong. -/
theorem delete_txs_s6_counterexample :
    delete_txs 7 3 rowsW ≠ some ([mkTx 4, mkTx 5, mkTx 6, mkTx 7], 4) := by
  decide

/-- Claim C8 as amended: with current epoch 7 and retention 3, delete_txs
removes the rows of epochs 0 through 4 and preserves exactly epochs 5, 6
and 7, returning count 5. -/
theorem delete_txs_s6_actual :
    delete_txs 7 3 rowsW = some ([mkTx 5, mkTx 6, mkTx 7], 5) := by
  decide

/-- Claim C9 (code_bug evidence): the status mapping of
get_latest_transactions is 400 to MalformedQuery, 404 to TxsNotFound, 500 to
InternalServerError, 504 to GatewayTimeout, other non-success statuses to
UnknownErr, but a transport-level connection error panics on the unwrap of
the response instead of surfacing as UnknownErr. -/
theorem get_latest_transactions_status_mapping :
    get_latest_transactions (HttpOutcome.response 400 none) =
      Step.ok (RResult.err ArweaveError.MalformedQuery) ∧
    get_latest_transactions (HttpOutcome.response 404 none) =
      Step.ok (RResult.err ArweaveError.TxsNotFound) ∧
    get_latest_transactions (HttpOutcome.response 500 none) =
      Step.ok (RResult.err ArweaveError.InternalServerError) ∧
    get_latest_transactions (HttpOutcome.response 504 none) =
      Step.ok (RResult.err ArweaveError.GatewayTimeout) ∧
    get_latest_transactions (HttpOutcome.response 418 none) =
      Step.ok (RResult.err ArweaveError.UnknownErr) ∧
    get_latest_transactions (HttpOutcome.response 302 none) =
      Step.ok (RResult.err ArweaveError.UnknownErr) ∧
    get_latest_transactions HttpOutcome.transportErr = Step.panic :=
  ⟨rfl, rfl, rfl, rfl, rfl, rfl, rfl⟩

/-- Claim C10: delete_txs builds the retained epochs with an unchecked
subtraction, so the run fails by underflow, independently of the stored
rows, exactly when the current epoch is smaller than the retention minus
one. -/
theorem delete_txs_underflow_iff (e r : Nat) (rows : List Tx) :
    delete_txs e r rows = none ↔ e < r - 1 := by
  unfold delete_txs
  cases hc : collectEpochs e (List.range r) with
  | none =>
    obtain ⟨i, hi, hei⟩ := (collectEpochs_eq_none e (List.range r)).mp hc
    rw [List.mem_range] at hi
    exact ⟨fun _ => by omega, fun _ => rfl⟩
  | some es =>
    constructor
    · intro hcon; exact absurd hcon (by simp)
    · intro hlt
      have h2 : collectEpochs e (List.range r) = none :=
        (collectEpochs_eq_none e (List.range r)).mpr
          ⟨e + 1, List.mem_range.mpr (by omega), by omega⟩
      rw [hc] at h2
      exact Option.noConfusion h2

end ValidatorSpec
